import Mathlib

/-!
Shallow embedding of the run-assembly layer of `src/llm/main.py`:
the distributed batch-size partitioner (`calculate_batch_size_info`,
`update_batch_size_info`), the component builder dispatch functions
(`build_logger`, `build_algorithm`, `build_composer_model`,
`build_dataloader`) and the evaluator assembler (`get_evaluators`).

Python integers are modelled as `Int`; Python floor division `//` is
`Int.fdiv` and Python `%` is `Int.fmod` (both floor-convention, matching
Python).  A raised exception is modelled as the `.error` branch of an
`Except` result; the warning printed by the microbatch clamp is modelled
as a boolean flag in the returned record.  External collaborators
(the concrete builder classes, the model registry dictionary, the task
dataloader constructor) are parameters of the embedded functions.
-/

namespace LLM

/-- The `device_microbatch_size` configuration value as it arrives:
the string `"auto"`, a Python `int`, or some other unparsable value
(modelled by its string rendering). -/
inductive MBSpec where
  | auto : MBSpec
  | int : Int → MBSpec
  | other : String → MBSpec
deriving DecidableEq, Repr

/-- A resolved microbatch / grad-accum value: `"auto"` or a concrete int. -/
inductive MBVal where
  | auto : MBVal
  | int : Int → MBVal
deriving DecidableEq, Repr

/-- A resolved value written back into the config field that originally
held an `MBSpec`. -/
def MBVal.toSpec : MBVal → MBSpec
  | .auto => .auto
  | .int n => .int n

/-- The triple returned by `calculate_batch_size_info`, plus a flag
recording whether the clamping warning was printed. -/
structure BatchSizeInfo where
  device_batch_size : Int
  device_microbatch_size : MBVal
  device_grad_accum : MBVal
  warned : Bool
deriving DecidableEq, Repr

/-- The exceptions `calculate_batch_size_info` can raise:
the divisibility `ValueError` (carrying the two offending values), the
unparsable-value `ValueError` (carrying the offending spec), and Python's
`ZeroDivisionError` from `device_batch_size // 0`. -/
inductive BatchSizeError where
  | notDivisible : Int → Int → BatchSizeError
  | unparsable : MBSpec → BatchSizeError
  | zeroDivision : BatchSizeError
deriving DecidableEq, Repr

/-- `calculate_batch_size_info` of `src/llm/main.py` (lines 88-108).
`world_size` is the value of the external `dist.get_world_size()`.
The source checks `global_batch_size % world_size != 0` and raises; else
`device_batch_size = global_batch_size // world_size`; `"auto"` propagates;
an `int` is clamped down to `device_batch_size` (with a warning) when it
exceeds it, and then `device_grad_accum = device_batch_size //
device_microbatch_size` with no divisibility check; anything else raises
the unparsable `ValueError`. -/
def calculate_batch_size_info (world_size global_batch_size : Int)
    (device_microbatch_size : MBSpec) : Except BatchSizeError BatchSizeInfo :=
  if global_batch_size.fmod world_size ≠ 0 then
    .error (.notDivisible global_batch_size world_size)
  else
    let device_batch_size := global_batch_size.fdiv world_size
    match device_microbatch_size with
    | .auto => .ok ⟨device_batch_size, .auto, .auto, false⟩
    | .int m =>
      let warned := decide (m > device_batch_size)
      let m' := if m > device_batch_size then device_batch_size else m
      if m' = 0 then .error .zeroDivision
      else .ok ⟨device_batch_size, .int m', .int (device_batch_size.fdiv m'), warned⟩
    | .other s => .error (.unparsable (.other s))

/-- If `calculate_batch_size_info` returns a plan then the divisibility
check passed and the device batch size is the floor quotient. -/
theorem calc_ok_dbs (w g : Int) (spec : MBSpec) (plan : BatchSizeInfo)
    (hp : calculate_batch_size_info w g spec = .ok plan) :
    g.fmod w = 0 ∧ plan.device_batch_size = g.fdiv w := by
  unfold calculate_batch_size_info at hp
  by_cases h : g.fmod w = 0
  · refine ⟨h, ?_⟩
    simp only [h, ne_eq, not_true_eq_false, if_false, ite_false] at hp
    cases spec with
    | auto =>
      simp only [Except.ok.injEq] at hp
      rw [← hp]
    | int m =>
      simp only [] at hp
      split at hp <;> split at hp <;>
        first
          | exact Except.noConfusion hp
          | (simp only [Except.ok.injEq] at hp; rw [← hp])
    | other s => exact Except.noConfusion hp
  · simp [h] at hp

/-- C1: if `global_batch_size % world_size != 0` then
`calculate_batch_size_info` raises the divisibility error (never returns a
plan), and when the remainder is zero any plan it returns satisfies
`device_batch_size * world_size = global_batch_size`. -/
theorem C1_partition_divisibility (g w : Int) (_hw : 0 < w) (spec : MBSpec) :
    (g.fmod w ≠ 0 →
      calculate_batch_size_info w g spec = .error (.notDivisible g w)) ∧
    (g.fmod w = 0 → ∀ plan, calculate_batch_size_info w g spec = .ok plan →
      plan.device_batch_size * w = g) := by
  constructor
  · intro h
    simp [calculate_batch_size_info, h]
  · intro _ plan hp
    obtain ⟨hmod, hdbs⟩ := calc_ok_dbs w g spec plan hp
    have := Int.fdiv_add_fmod g w
    rw [hmod, add_zero] at this
    rw [hdbs, mul_comm]
    exact this

/-- C1 witness: at `world_size = 8`, `global_batch_size = 1027` the call
fails with the divisibility error, and at `1024` the returned plan has
`128 * 8 = 1024`. -/
theorem C1_partition_divisibility_witness :
    calculate_batch_size_info 8 1027 MBSpec.auto
        = .error (.notDivisible 1027 8) ∧
    (128 : Int) * 8 = 1024 :=
  ⟨(C1_partition_divisibility 1027 8 (by decide) .auto).1 (by decide),
   (C1_partition_divisibility 1024 8 (by decide) .auto).2 (by decide)
     ⟨128, .auto, .auto, false⟩ rfl⟩

/-- C5: with the `"auto"` sentinel the partitioner returns AUTO for both
the resolved microbatch size and the grad-accum factor, with no warning
and no arithmetic on the sentinel. -/
theorem C5_partition_auto (g w : Int) (_hw : 0 < w) (hmod : g.fmod w = 0) :
    calculate_batch_size_info w g .auto
      = .ok ⟨g.fdiv w, .auto, .auto, false⟩ := by
  simp [calculate_batch_size_info, hmod]

/-- C5 witness at `partition(1024, 8, "auto")`. -/
theorem C5_partition_auto_witness :
    calculate_batch_size_info 8 1024 .auto
      = .ok ⟨128, .auto, .auto, false⟩ :=
  C5_partition_auto 1024 8 (by decide) (by decide)

/-- C4: for a concrete integer microbatch with divisible global batch and
positive device batch size: a value above `device_batch_size` is clamped
to it with a warning and grad accum 1; a positive divisor of
`device_batch_size` gives grad accum `device_batch_size / m` with no
warning; and the two concrete examples from the spec. -/
theorem C4_partition_clamp_and_divide (g w m : Int) (_hw : 0 < w)
    (hmod : g.fmod w = 0) (hdbs : 0 < g.fdiv w) :
    (m > g.fdiv w →
      calculate_batch_size_info w g (.int m)
        = .ok ⟨g.fdiv w, .int (g.fdiv w), .int 1, true⟩) ∧
    (0 < m → m ∣ g.fdiv w →
      calculate_batch_size_info w g (.int m)
        = .ok ⟨g.fdiv w, .int m, .int (g.fdiv w / m), false⟩) ∧
    calculate_batch_size_info 8 1024 (.int 256)
      = .ok ⟨128, .int 128, .int 1, true⟩ ∧
    calculate_batch_size_info 8 1024 (.int 64)
      = .ok ⟨128, .int 64, .int 2, false⟩ := by
  have hne : g.fdiv w ≠ 0 := ne_of_gt hdbs
  refine ⟨?_, ?_, rfl, rfl⟩
  · intro hgt
    simp [calculate_batch_size_info, hmod, hgt, hne, Int.fdiv_self hne]
  · intro hm hdvd
    have hle : m ≤ g.fdiv w := Int.le_of_dvd hdbs hdvd
    have hnotgt : ¬ (m > g.fdiv w) := not_lt.mpr hle
    have hm0 : m ≠ 0 := ne_of_gt hm
    simp [calculate_batch_size_info, hmod, hnotgt, hm0,
      Int.fdiv_eq_ediv _ (le_of_lt hm)]

/-- C4 witness: the clamp branch at `partition(1024, 8, 256)` and the
dividing branch at `partition(1024, 8, 64)`, via the general theorem. -/
theorem C4_partition_clamp_and_divide_witness :
    calculate_batch_size_info 8 1024 (.int 256)
      = .ok ⟨128, .int 128, .int 1, true⟩ ∧
    calculate_batch_size_info 8 1024 (.int 64)
      = .ok ⟨128, .int 64, .int 2, false⟩ :=
  ⟨((C4_partition_clamp_and_divide 1024 8 256 (by decide) (by decide)
      (by decide)).1 (by decide)),
   ((C4_partition_clamp_and_divide 1024 8 64 (by decide) (by decide)
      (by decide)).2.1 (by decide) (by decide))⟩

/-- C2 counterexample: `m = 48` is positive, at most
`device_batch_size = 128` and does not divide it, yet
`calculate_batch_size_info` returns a plan with the grad-accum factor
silently floored to `128 // 48 = 2` — it does not raise any error. -/
theorem C2_partition_no_fail_cex :
    calculate_batch_size_info 8 1024 (MBSpec.int 48)
        = .ok ⟨128, .int 48, .int 2, false⟩ ∧
    (calculate_batch_size_info 8 1024 (MBSpec.int 48)).isOk = true :=
  ⟨rfl, rfl⟩

/-- C2 amended: for any concrete positive integer microbatch at most the
device batch size — dividing it evenly or not — the code performs no
divisibility check: it returns a plan whose grad-accum factor is the
floor quotient `device_batch_size // m`, with no warning and no error. -/
theorem C2_partition_silent_floor (g w m : Int) (_hw : 0 < w)
    (hmod : g.fmod w = 0) (hm : 0 < m) (hle : m ≤ g.fdiv w) :
    calculate_batch_size_info w g (.int m)
      = .ok ⟨g.fdiv w, .int m, .int ((g.fdiv w).fdiv m), false⟩ := by
  have hnotgt : ¬ (m > g.fdiv w) := not_lt.mpr hle
  have hm0 : m ≠ 0 := ne_of_gt hm
  simp [calculate_batch_size_info, hmod, hnotgt, hm0]

/-- C2 amended witness at `partition(1024, 8, 48)`: grad accum floored
to 2, no error. -/
theorem C2_partition_silent_floor_witness :
    calculate_batch_size_info 8 1024 (.int 48)
      = .ok ⟨128, .int 48, .int 2, false⟩ :=
  C2_partition_silent_floor 1024 8 48 (by decide) (by decide) (by decide)
    (by decide)

/-- C3 counterexample: the negative integer `-4` passes Python's
`isinstance(·, int)` test and yields a plan with grad accum
`128 // -4 = -32` (no error at all); and `0` raises `ZeroDivisionError`,
which is not the unparsable-kind `ValueError`. -/
theorem C3_partition_negative_cex :
    calculate_batch_size_info 8 1024 (MBSpec.int (-4))
        = .ok ⟨128, .int (-4), .int (-32), false⟩ ∧
    calculate_batch_size_info 8 1024 (MBSpec.int 0)
        = .error .zeroDivision :=
  ⟨rfl, rfl⟩

/-- C3 amended: only a value that is neither `"auto"` nor an `int` raises
the unparsable-kind error; a zero microbatch instead raises
`ZeroDivisionError`, and a negative integer is accepted and floored. -/
theorem C3_partition_unparsable (g w : Int) (_hw : 0 < w)
    (hmod : g.fmod w = 0) (hg : 0 ≤ g) (hwle : 0 ≤ w) :
    (∀ s, calculate_batch_size_info w g (.other s)
        = .error (.unparsable (.other s))) ∧
    calculate_batch_size_info w g (.int 0) = .error .zeroDivision := by
  constructor
  · intro s
    simp [calculate_batch_size_info, hmod]
  · have hdbs : 0 ≤ g.fdiv w := Int.fdiv_nonneg hg hwle
    have hnotgt : ¬ ((0 : Int) > g.fdiv w) := not_lt.mpr hdbs
    simp [calculate_batch_size_info, hmod, hnotgt]

/-- C3 amended witness at `world_size = 8`, `global_batch_size = 1024`:
an arbitrary string fails as unparsable and `0` fails with the
division error. -/
theorem C3_partition_unparsable_witness :
    calculate_batch_size_info 8 1024 (.other "None")
        = .error (.unparsable (.other "None")) ∧
    calculate_batch_size_info 8 1024 (.int 0) = .error .zeroDivision :=
  ⟨(C3_partition_unparsable 1024 8 (by decide) (by decide) (by decide)
      (by decide)).1 "None",
   (C3_partition_unparsable 1024 8 (by decide) (by decide) (by decide)
      (by decide)).2⟩

/-- The slice of the configuration tree that `update_batch_size_info`
reads and writes.  Fields the function only writes start out as `none`
("key not in cfg"). -/
structure Config where
  global_train_batch_size : Int
  device_train_microbatch_size : MBSpec
  n_gpus : Option Int
  device_train_batch_size : Option Int
  device_train_grad_accum : Option MBVal
  device_eval_batch_size : Option Int
deriving DecidableEq, Repr

/-- `update_batch_size_info` of `src/llm/main.py` (lines 112-125): calls
`calculate_batch_size_info`, writes the results back into the config
(overwriting `device_train_microbatch_size` with the resolved value), and
then, only when `device_eval_batch_size` is absent, sets it to `1` when
the resolved microbatch size is `"auto"` and to the resolved microbatch
size otherwise. -/
def update_batch_size_info (world_size : Int) (cfg : Config) :
    Except BatchSizeError Config :=
  match calculate_batch_size_info world_size cfg.global_train_batch_size
      cfg.device_train_microbatch_size with
  | .error e => .error e
  | .ok info =>
    let cfg1 : Config :=
      { cfg with
        n_gpus := some world_size
        device_train_batch_size := some info.device_batch_size
        device_train_microbatch_size := info.device_microbatch_size.toSpec
        device_train_grad_accum := some info.device_grad_accum }
    match cfg1.device_eval_batch_size with
    | some _ => .ok cfg1
    | none =>
      match cfg1.device_train_microbatch_size with
      | .auto => .ok { cfg1 with device_eval_batch_size := some 1 }
      | .int m => .ok { cfg1 with device_eval_batch_size := some m }
      | .other _ => .ok cfg1

/-- C9: when `device_eval_batch_size` is absent from the config, the
batch-size update sets it to `1` if the resolved training microbatch size
is AUTO and to the resolved (post-clamp) microbatch size otherwise; when
it is already present it is returned unchanged. -/
theorem C9_eval_batch_size_default (w : Int) (cfg : Config)
    (c' : Config) (info : BatchSizeInfo)
    (hok : update_batch_size_info w cfg = .ok c')
    (hcalc : calculate_batch_size_info w cfg.global_train_batch_size
        cfg.device_train_microbatch_size = .ok info) :
    c'.device_eval_batch_size
      = some (match cfg.device_eval_batch_size with
          | some v => v
          | none =>
            match info.device_microbatch_size with
            | .auto => 1
            | .int m => m) := by
  unfold update_batch_size_info at hok
  rw [hcalc] at hok
  cases hv : cfg.device_eval_batch_size with
  | some v =>
    simp only [hv] at hok ⊢
    simp only [Except.ok.injEq] at hok
    rw [← hok]
  | none =>
    simp only [hv] at hok ⊢
    cases hm : info.device_microbatch_size with
    | auto =>
      simp only [hm, MBVal.toSpec] at hok
      simp only [Except.ok.injEq] at hok
      rw [← hok]
    | int m =>
      simp only [hm, MBVal.toSpec] at hok
      simp only [Except.ok.injEq] at hok
      rw [← hok]

/-- C9 witness: a config without `device_eval_batch_size` and microbatch
`"auto"` gets eval batch size `1`; instantiated through the theorem at a
concrete config. -/
theorem C9_eval_batch_size_default_witness :
    (⟨1024, MBSpec.auto, some 8, some 128, some .auto,
        some 1⟩ : Config).device_eval_batch_size = some 1 :=
  C9_eval_batch_size_default 8
    ⟨1024, .auto, none, none, none, none⟩
    ⟨1024, .auto, some 8, some 128, some .auto, some 1⟩
    ⟨128, .auto, .auto, false⟩ rfl rfl

/-- The configuration fragment handed to a builder, modelled as an
association list of string keys and values. -/
abbrev Kwargs := List (String × String)

/-- Errors of the component-resolution functions: a `ConfigurationError`
raised inside a builder while constructing the component, or the
dispatcher's own "Not sure how to build ..." `ValueError`, carrying the
category and the offending name (or config rendering). -/
inductive CompError where
  | builderError : String → CompError
  | notSureHowToBuild : String → String → CompError
deriving DecidableEq, Repr

/-- `build_logger` of `src/llm/main.py` (lines 38-42): dispatch on the
name; the only registered builder is the external `WandBLogger`
constructor (a parameter here); an unknown name raises the
"Not sure how to build logger" `ValueError`.  No `try` block wraps the
builder call, so a builder error propagates unchanged. -/
def build_logger {L : Type} (WandBLogger : Kwargs → Except CompError L)
    (name : String) (kwargs : Kwargs) : Except CompError L :=
  if name = "wandb" then WandBLogger kwargs
  else .error (.notSureHowToBuild "logger" name)

/-- `build_algorithm` of `src/llm/main.py` (lines 60-64): the only
registered builder is the external `algorithms.GradientClipping`
constructor; an unknown name raises the "Not sure how to build algorithm"
`ValueError`; a builder error propagates unchanged. -/
def build_algorithm {A : Type}
    (GradientClipping : Kwargs → Except CompError A)
    (name : String) (kwargs : Kwargs) : Except CompError A :=
  if name = "gradient_clipping" then GradientClipping kwargs
  else .error (.notSureHowToBuild "algorithm" name)

/-- `build_composer_model` of `src/llm/main.py` (lines 139-146): looks
`cfg.name` up in the external `COMPOSER_MODEL_REGISTRY` (a parameter
here) and calls the builder, all inside `try: ... except:` with a bare
`except` — a missing key AND any exception the builder raises are both
replaced by the "Not sure how to build model" `ValueError`. -/
def build_composer_model {M : Type}
    (registry : String → Option (Kwargs → Except CompError M))
    (name : String) (cfg : Kwargs) : Except CompError M :=
  match registry name with
  | none => .error (.notSureHowToBuild "model" name)
  | some builder =>
    match builder cfg with
    | .ok m => .ok m
    | .error _ => .error (.notSureHowToBuild "model" name)

/-- `build_dataloader` of `src/llm/main.py` (lines 149-153): calls the
external `build_text_dataloader` inside a bare `except`, replacing any
exception by the "Not sure how to build dataloader" `ValueError`
(whose message renders the config). -/
def build_dataloader {D : Type}
    ( build_text_dataloader : Kwargs → Int → Except CompError D)
    (cfg : Kwargs) (device_batch_size : Int) : Except CompError D :=
  match build_text_dataloader cfg device_batch_size with
  | .ok d => .ok d
  | .error _ => .error (.notSureHowToBuild "dataloader" (reprStr cfg))

/-- C6 counterexample: a model builder that raises a
`ConfigurationError` naming its missing field.  `build_composer_model`
does not propagate it: the bare `except` swallows it and re-raises the
unknown-component-style "Not sure how to build model" error instead. -/
theorem C6_model_swallows_builder_error_cex :
    build_composer_model
        (fun n => if n = "mosaic_gpt"
          then some (fun _ => (.error (.builderError "d_model missing")
            : Except CompError Nat))
          else none)
        "mosaic_gpt" []
      = .error (.notSureHowToBuild "model" "mosaic_gpt") ∧
    build_composer_model
        (fun n => if n = "mosaic_gpt"
          then some (fun _ => (.error (.builderError "d_model missing")
            : Except CompError Nat))
          else none)
        "mosaic_gpt" []
      ≠ .error (.builderError "d_model missing") :=
  ⟨rfl, fun h => CompError.noConfusion (Except.error.inj h)⟩

/-- C6 amended: builder errors propagate unchanged through
`build_logger` and `build_algorithm` (no wrapping `try`), but
`build_composer_model` and `build_dataloader` catch every builder error
with a bare `except` and replace it by their own
"Not sure how to build ..." error. -/
theorem C6_error_propagation (e : CompError) (kwargs : Kwargs)
    (dbs : Int) :
    (∀ (L : Type) (B : Kwargs → Except CompError L), B kwargs = .error e →
      build_logger B "wandb" kwargs = .error e) ∧
    (∀ (A : Type) (B : Kwargs → Except CompError A), B kwargs = .error e →
      build_algorithm B "gradient_clipping" kwargs = .error e) ∧
    (∀ (M : Type) (reg : String → Option (Kwargs → Except CompError M))
      (name : String) (B : Kwargs → Except CompError M),
      reg name = some B → B kwargs = .error e →
      build_composer_model reg name kwargs
        = .error (.notSureHowToBuild "model" name)) ∧
    (∀ (D : Type) (B : Kwargs → Int → Except CompError D),
      B kwargs dbs = .error e →
      build_dataloader B kwargs dbs
        = .error (.notSureHowToBuild "dataloader" (reprStr kwargs))) := by
  refine ⟨?_, ?_, ?_, ?_⟩
  · intro L B hB
    simp [build_logger, hB]
  · intro A B hB
    simp [build_algorithm, hB]
  · intro M reg name B hreg hB
    simp [build_composer_model, hreg, hB]
  · intro D B hB
    simp [build_dataloader, hB]

/-- C6 amended witness: a concrete erroring builder propagates through
`build_logger` but is swallowed by `build_composer_model`. -/
theorem C6_error_propagation_witness :
    build_logger (fun _ => (.error (.builderError "entity missing")
        : Except CompError Nat)) "wandb" []
      = .error (.builderError "entity missing") ∧
    build_composer_model
        (fun _ => some (fun _ => (.error (.builderError "entity missing")
          : Except CompError Nat)))
        "mosaic_gpt" []
      = .error (.notSureHowToBuild "model" "mosaic_gpt") :=
  ⟨(C6_error_propagation (.builderError "entity missing") [] 0).1 Nat
      (fun _ => .error (.builderError "entity missing")) rfl,
   (C6_error_propagation (.builderError "entity missing") [] 0).2.2.1 Nat
      (fun _ => some (fun _ => .error (.builderError "entity missing")))
      "mosaic_gpt" (fun _ => .error (.builderError "entity missing"))
      rfl rfl⟩

/-- C7: for an unregistered name, `build_logger` and `build_algorithm`
fail with the "Not sure how to build ..." error carrying both the
category and the offending name, without ever invoking any builder (the
result does not depend on the builder parameter at all). -/
theorem C7_unknown_component (name : String) (kwargs : Kwargs) :
    (∀ (L : Type) (B : Kwargs → Except CompError L), name ≠ "wandb" →
      build_logger B name kwargs
        = .error (.notSureHowToBuild "logger" name)) ∧
    (∀ (A : Type) (B : Kwargs → Except CompError A),
      name ≠ "gradient_clipping" →
      build_algorithm B name kwargs
        = .error (.notSureHowToBuild "algorithm" name)) := by
  constructor
  · intro L B h
    simp [build_logger, h]
  · intro A B h
    simp [build_algorithm, h]

/-- C7 witness: `resolve(logger, "nonexistent", {})` and
`resolve(algorithm, "nonexistent", {})` fail with the error naming the
category and the name, for a builder that would happily succeed. -/
theorem C7_unknown_component_witness :
    build_logger (fun _ => (.ok 0 : Except CompError Nat))
        "nonexistent" []
      = .error (.notSureHowToBuild "logger" "nonexistent") ∧
    build_algorithm (fun _ => (.ok 0 : Except CompError Nat))
        "nonexistent" []
      = .error (.notSureHowToBuild "algorithm" "nonexistent") :=
  ⟨(C7_unknown_component "nonexistent" []).1 Nat (fun _ => .ok 0)
      (by decide),
   (C7_unknown_component "nonexistent" []).2 Nat (fun _ => .ok 0)
      (by decide)⟩

/-- One entry of `cfg.icl_tasks`: the three fields `get_evaluators`
fetches with `.get(key, None)` — `none` models an absent key. -/
structure TaskSpec where
  dataset_uri : Option String
  name : Option String
  metric_names : Option (List String)
deriving DecidableEq, Repr

/-- Model of the external `get_lm_task_dataloader`: a record of the
arguments `get_evaluators` passes it (the opaque tokenizer and its eos
token id are pass-throughs and are omitted). -/
structure LMTaskDataloader where
  dataset_uri : String
  batch_size : Int
  max_seq_len : Int
deriving DecidableEq, Repr

def get_lm_task_dataloader (uri : String) (batch_size max_seq_len : Int) :
    LMTaskDataloader :=
  ⟨uri, batch_size, max_seq_len⟩

/-- The `composer` `Evaluator` as `get_evaluators` constructs it. -/
structure Evaluator where
  label : String
  dataloader : LMTaskDataloader
  metric_names : List String
deriving DecidableEq, Repr

/-- The `AssertionError` raised by the `assert` in `get_evaluators`. -/
inductive EvalError where
  | assertionError : EvalError
deriving DecidableEq, Repr

/-- Python truthiness of a fetched string field: `None` and `""` are
falsy. -/
def truthyStr : Option String → Bool
  | none => false
  | some s => decide (s ≠ "")

/-- Python truthiness of a fetched list field: `None` and `[]` are
falsy. -/
def truthyList : Option (List String) → Bool
  | none => false
  | some l => decide (l ≠ [])

/-- The condition of `assert dataset_uri and name and metric_names`. -/
def taskFieldsOk (t : TaskSpec) : Bool :=
  truthyStr t.dataset_uri && truthyStr t.name && truthyList t.metric_names

/-- `get_evaluators` of `src/llm/main.py` (lines 23-35): for each task
spec, fetch the three fields, `assert` their truthiness (an untruthy
field raises `AssertionError` before any dataloader is built for that
task), build the task dataloader with batch size `max(4, batch_size)`,
and append an `Evaluator` labelled by the task name with the metric
names materialized verbatim by `list(…)`. -/
def get_evaluators (cfg : List TaskSpec) (batch_size seqlen : Int) :
    Except EvalError (List Evaluator) :=
  match cfg with
  | [] => .ok []
  | t :: rest =>
    match t.dataset_uri, t.name, t.metric_names with
    | some uri, some nm, some ms =>
      if uri = "" ∨ nm = "" ∨ ms = [] then .error .assertionError
      else
        match get_evaluators rest batch_size seqlen with
        | .ok evs =>
          .ok (⟨nm, get_lm_task_dataloader uri (max 4 batch_size) seqlen,
            ms⟩ :: evs)
        | .error e => .error e
    | _, _, _ => .error .assertionError

/-- The evaluator `get_evaluators` produces for one valid task spec. -/
def evalOf (batch_size seqlen : Int) (t : TaskSpec) : Evaluator :=
  ⟨t.name.getD "",
   get_lm_task_dataloader (t.dataset_uri.getD "") (max 4 batch_size) seqlen,
   t.metric_names.getD []⟩

/-- A task spec failing the truthiness assert makes `get_evaluators`
raise the `AssertionError` (so no dataloader exists for that task). -/
theorem get_evaluators_of_bad (cfg : List TaskSpec) (bs sl : Int)
    (h : ∃ t ∈ cfg, taskFieldsOk t = false) :
    get_evaluators cfg bs sl = .error .assertionError := by
  induction cfg with
  | nil =>
    obtain ⟨t, ht, _⟩ := h
    exact absurd ht (List.not_mem_nil t)
  | cons t rest ih =>
    obtain ⟨u, hu, hbad⟩ := h
    by_cases hft : taskFieldsOk t = false
    · unfold get_evaluators
      cases hd : t.dataset_uri with
      | none => rfl
      | some uri =>
        cases hn : t.name with
        | none => rfl
        | some nm =>
          cases hm : t.metric_names with
          | none => rfl
          | some ms =>
            simp only [taskFieldsOk, truthyStr, truthyList, hd, hn, hm,
              Bool.and_eq_false_iff, decide_eq_false_iff_not,
              not_not] at hft
            have : uri = "" ∨ nm = "" ∨ ms = [] := by tauto
            simp [this]
    · have hft' : taskFieldsOk t = true := by
        cases hq : taskFieldsOk t
        · exact absurd hq hft
        · rfl
      have humem : u ∈ rest := by
        rcases List.mem_cons.mp hu with rfl | hr
        · rw [hbad] at hft'
          exact absurd hft' (by simp)
        · exact hr
      have hrest := ih ⟨u, humem, hbad⟩
      unfold get_evaluators
      rcases hd : t.dataset_uri with _ | uri
      · simp only [taskFieldsOk, truthyStr, hd] at hft'
        simp at hft'
      · rcases hn : t.name with _ | nm
        · simp only [taskFieldsOk, truthyStr, hn] at hft'
          simp at hft'
        · rcases hm : t.metric_names with _ | ms
          · simp only [taskFieldsOk, truthyList, hm] at hft'
            simp at hft'
          · simp only [taskFieldsOk, truthyStr, truthyList, hd, hn, hm,
              Bool.and_eq_true, decide_eq_true_eq] at hft'
            have hne : ¬ (uri = "" ∨ nm = "" ∨ ms = []) := by tauto
            simp only [hne, if_false, ite_false]
            rw [hrest]

/-- When every task spec passes the assert, `get_evaluators` returns one
evaluator per spec, in order, each via `evalOf`. -/
theorem get_evaluators_of_good (cfg : List TaskSpec) (bs sl : Int)
    (h : ∀ t ∈ cfg, taskFieldsOk t = true) :
    get_evaluators cfg bs sl = .ok (cfg.map (evalOf bs sl)) := by
  induction cfg with
  | nil => rfl
  | cons t rest ih =>
    have hft := h t (List.mem_cons_self t rest)
    have hrest := ih (fun u hu => h u (List.mem_cons_of_mem t hu))
    unfold get_evaluators
    rcases hd : t.dataset_uri with _ | uri
    · simp only [taskFieldsOk, truthyStr, hd] at hft
      simp at hft
    · rcases hn : t.name with _ | nm
      · simp only [taskFieldsOk, truthyStr, hn] at hft
        simp at hft
      · rcases hm : t.metric_names with _ | ms
        · simp only [taskFieldsOk, truthyList, hm] at hft
          simp at hft
        · simp only [taskFieldsOk, truthyStr, truthyList, hd, hn, hm,
            Bool.and_eq_true, decide_eq_true_eq] at hft
          have hne : ¬ (uri = "" ∨ nm = "" ∨ ms = []) := by tauto
          simp only [hne, if_false, ite_false]
          rw [hrest]
          simp [evalOf, hd, hn, hm]

/-- C8: a task spec with an absent (or untruthy) `dataset_uri`, `name`
or `metric_names` makes `get_evaluators` raise before building that
task's dataloader; on all-valid specs it returns exactly one evaluator
per spec, in input order, with `metric_names` preserved verbatim and
each dataloader built with batch size `max(4, batch_size)` (all encoded
by `evalOf`). -/
theorem C8_assemble_evaluators (cfg : List TaskSpec) (bs sl : Int) :
    ((∃ t ∈ cfg, taskFieldsOk t = false) →
      get_evaluators cfg bs sl = .error .assertionError) ∧
    ((∀ t ∈ cfg, taskFieldsOk t = true) →
      get_evaluators cfg bs sl = .ok (cfg.map (evalOf bs sl)) ∧
      ∀ evs, get_evaluators cfg bs sl = .ok evs →
        evs.length = cfg.length ∧
        evs.map Evaluator.metric_names
          = cfg.map (fun t => t.metric_names.getD []) ∧
        ∀ e ∈ evs, e.dataloader.batch_size = max 4 bs) := by
  refine ⟨get_evaluators_of_bad cfg bs sl, ?_⟩
  intro h
  have hok := get_evaluators_of_good cfg bs sl h
  refine ⟨hok, ?_⟩
  intro evs hevs
  rw [hok] at hevs
  have hevs' : evs = cfg.map (evalOf bs sl) :=
    (Except.ok.inj hevs).symm
  subst hevs'
  refine ⟨List.length_map cfg (evalOf bs sl), ?_, ?_⟩
  · rw [List.map_map]
    rfl
  · intro e he
    obtain ⟨t, _, rfl⟩ := List.mem_map.mp he
    rfl

/-- C8 witness: a list with a spec missing `metric_names` raises; two
valid specs give two evaluators in order with verbatim metric names and
dataloader batch size `max(4, 2) = 4`. -/
theorem C8_assemble_evaluators_witness :
    get_evaluators
        [⟨some "u1", some "t1", some ["m1"]⟩,
         ⟨some "u2", some "t2", none⟩] 2 1024
      = .error .assertionError ∧
    get_evaluators
        [⟨some "u1", some "t1", some ["m1", "m2"]⟩,
         ⟨some "u2", some "t2", some ["m3"]⟩] 2 1024
      = .ok [⟨"t1", ⟨"u1", 4, 1024⟩, ["m1", "m2"]⟩,
             ⟨"t2", ⟨"u2", 4, 1024⟩, ["m3"]⟩] :=
  ⟨(C8_assemble_evaluators
      [⟨some "u1", some "t1", some ["m1"]⟩,
       ⟨some "u2", some "t2", none⟩] 2 1024).1
      ⟨⟨some "u2", some "t2", none⟩, by decide, rfl⟩,
   ((C8_assemble_evaluators
      [⟨some "u1", some "t1", some ["m1", "m2"]⟩,
       ⟨some "u2", some "t2", some ["m3"]⟩] 2 1024).2
      (by decide)).1⟩

/-- C10: a task spec whose `dataset_uri` is the empty string, whose
`name` is the empty string, or whose `metric_names` is the empty list is
rejected exactly like an absent field: `get_evaluators` raises the
`AssertionError` and builds nothing, even though all three keys are
present. -/
theorem C10_empty_fields_rejected (cfg : List TaskSpec) (bs sl : Int)
    (t : TaskSpec) (ht : t ∈ cfg)
    (h : t.dataset_uri = some "" ∨ t.name = some ""
      ∨ t.metric_names = some ([] : List String)) :
    get_evaluators cfg bs sl = .error .assertionError := by
  apply get_evaluators_of_bad cfg bs sl
  refine ⟨t, ht, ?_⟩
  rcases h with h | h | h
  · simp [taskFieldsOk, truthyStr, h]
  · simp [taskFieldsOk, truthyStr, h]
  · simp [taskFieldsOk, truthyList, h]

/-- C10 witness: a single task spec with all three keys present but
`dataset_uri = ""` raises the assert. -/
theorem C10_empty_fields_rejected_witness :
    get_evaluators [⟨some "", some "task", some ["acc"]⟩] 8 1024
      = .error .assertionError :=
  C10_empty_fields_rejected [⟨some "", some "task", some ["acc"]⟩] 8 1024
    ⟨some "", some "task", some ["acc"]⟩ (by decide) (Or.inl rfl)

end LLM
